import Mathlib

/-
Verification of the submission-form logic in mkt/submit/forms.py.

The file embeds the decision logic of the forms as pure Lean functions.
External collaborators (the ORM, waffle feature flags, the basket client,
the amo constants module, parse_addon, verify_app_domain, slug_validator)
are not part of the repository sources; they are modelled as abstract
parameters or, where the spec describes them, by definitions whose doc
comments say so.
-/

namespace ZamboniSubmit

/-- The four device types reachable from the platform tokens handled by
DeviceTypeForm.get_devices: amo.DEVICE_GAIA, amo.DEVICE_DESKTOP,
amo.DEVICE_MOBILE, amo.DEVICE_TABLET. -/
inductive DeviceType
  | gaia
  | desktop
  | mobile
  | tablet
deriving DecidableEq, Repr

/-- Helper for afterFirstDash: everything after the first dash of a
character list, or none when there is no dash. -/
def afterDashAux : List Char → Option (List Char)
  | [] => none
  | c :: rest => if c = '-' then some rest else afterDashAux rest

/-- Embeds the Python idiom t.split(dash, 1)[1] used in DeviceTypeForm.save
and DeviceTypeForm._get_combined: the part of the token after the first
dash.  On a token without a dash Python would raise IndexError; the form
fields only ever hand over choice-validated tokens, which all contain a
dash, so the fallback value is unreachable on real inputs. -/
def afterFirstDash (t : String) : String :=
  match afterDashAux t.data with
  | some cs => String.mk cs
  | none => ""

/-- The platforms dictionary of DeviceTypeForm.get_devices; dict.get
returns none for an unknown key. -/
def platformsMap (s : String) : Option DeviceType :=
  if s = "firefoxos" then some DeviceType.gaia
  else if s = "desktop" then some DeviceType.desktop
  else if s = "android-mobile" then some DeviceType.mobile
  else if s = "android-tablet" then some DeviceType.tablet
  else none

/-- DeviceTypeForm.get_devices: map(platforms.get, source). -/
def DeviceTypeForm.get_devices (source : List String) : List (Option DeviceType) :=
  source.map platformsMap

/-- Modelled from the spec: the re-review queue receives (listing, reason
code, message), and for device changes the message enumerates the added
and the removed platforms.  RereviewQueue.flag and the amo.DEVICE_TYPES
name table are external, so the entry records the added and removed
device sets that the message string lists. -/
structure DeviceRereviewEntry where
  added : Finset DeviceType
  removed : Finset DeviceType
deriving DecidableEq

/-- mark_for_rereview: builds the message from the added and removed
devices and calls RereviewQueue.flag exactly once. -/
def mark_for_rereview (added removed : Finset DeviceType) :
    List DeviceRereviewEntry :=
  [⟨added, removed⟩]

/-- DeviceTypeForm.save.  Inputs: the two cleaned platform token lists,
the is_paid argument, the prior device-type set of the listing and
whether addon.status is in amo.WEBAPPS_APPROVED_STATUSES.  Output: the
resulting device-type associations after the creates and deletes, and
the list of re-review entries created.  The result is none when Python
would raise, i.e. when a token maps to no device (dev.id on None). -/
def DeviceTypeForm.save (free_platforms paid_platforms : List String)
    (is_paid : Bool) (oldTypes : Finset DeviceType) (approved : Bool) :
    Option (Finset DeviceType × List DeviceRereviewEntry) :=
  let data := if is_paid then paid_platforms else free_platforms
  let submitted := DeviceTypeForm.get_devices (data.map afterFirstDash)
  (submitted.mapM id).map fun devs =>
    let new_types := devs.toFinset
    let added_devices := new_types \ oldTypes
    let removed_devices := oldTypes \ new_types
    let entries :=
      if added_devices.Nonempty ∧ approved = true then
        mark_for_rereview added_devices removed_devices
      else []
    ((oldTypes ∪ added_devices) \ removed_devices, entries)

/-- DeviceTypeForm.clean, standalone form: the first component is the
error key assigned to both platform fields (none when no error), the
second is whether clean returned the cleaned data (it always does in
this form: the error branches return data, and the base Form.clean of
the standalone form returns cleaned_data). -/
def DeviceTypeForm.clean (free paid : List String) :
    Option String × Bool :=
  if free ≠ [] ∧ paid ≠ [] then (some "both", true)
  else if free = [] ∧ paid = [] then (some "none", true)
  else (none, true)

/-- The fields NewWebappVersionForm.clean reads from the parsed package:
pkg.get of version and of origin; dict.get returns none for a missing
key. -/
structure ManifestData where
  version : Option String
  origin : Option String
deriving DecidableEq

/-- Python truthiness for an optional string: None and the empty string
are falsy. -/
def pyTruthy : Option String → Bool
  | none => false
  | some s => s ≠ ""

/-- The environment NewWebappVersionForm.clean consults.  parse_addon,
the addon record and verify_app_domain are external; the fields record:
whether the upload key survived field validation, the outcome of
parse_addon (none means it raised ValidationError), whether self.addon
is set, the version strings of addon.versions, addon.app_domain, and
whether the two verify_app_domain calls succeed (packaged branch with
exclude=addon, and the hosted branch on the upload name). -/
structure VersionEnv where
  uploadPresent : Bool
  parseResult : Option ManifestData
  hasAddon : Bool
  existingVersions : List String
  appDomain : String
  packagedDomainOk : Bool
  hostedDomainOk : Bool
deriving DecidableEq

/-- The user-facing errors NewWebappVersionForm.clean can attach to the
upload field. -/
inductive UploadError
  | missingUpload
  | parseFailed
  | versionExists (v : String)
  | domainVerify
  | originChanged
  | hostedDomain
deriving DecidableEq

/-- NewWebappVersionForm.clean.  First component: the errors set on the
upload field, in the order the code appends them.  Second component:
whether clean returned the cleaned data (false on every error path,
matching the early returns). -/
def NewWebappVersionForm.clean (is_packaged : Bool) (env : VersionEnv) :
    List UploadError × Bool :=
  if env.uploadPresent = false then ([UploadError.missingUpload], false)
  else if is_packaged then
    match env.parseResult with
    | none => ([UploadError.parseFailed], false)
    | some pkg =>
      let verErrors :=
        if pyTruthy pkg.version ∧ env.hasAddon = true ∧
            pkg.version.getD "" ∈ env.existingVersions then
          [UploadError.versionExists (pkg.version.getD "")]
        else []
      let originErrors :=
        if pyTruthy pkg.origin then
          (if env.packagedDomainOk = false then [UploadError.domainVerify]
           else []) ++
          (if env.hasAddon = true ∧ pkg.origin.getD "" ≠ env.appDomain then
            [UploadError.originChanged]
           else [])
        else []
      let errors := verErrors ++ originErrors
      if errors ≠ [] then (errors, false) else ([], true)
  else
    if env.hostedDomainOk = false then ([UploadError.hostedDomain], false)
    else ([], true)

/-- The error keys DeviceTypeForm and NewWebappForm assign to the two
platform fields (DeviceTypeForm.ERRORS). -/
inductive PlatformError
  | both
  | noneSelected
  | packaged
deriving DecidableEq

/-- The inputs NewWebappForm.clean consults: the cleaned platform token
lists, the is_packaged keyword and the cleaned packaged checkbox, the
two waffle packaging-capability flags, and the environment of the
inherited NewWebappVersionForm.clean. -/
structure NewWebappEnv where
  free : List String
  paid : List String
  isPackagedKw : Bool
  packagedField : Bool
  androidPackagedFlag : Bool
  desktopPackagedFlag : Bool
  version : VersionEnv
deriving DecidableEq

/-- NewWebappForm.is_packaged: the keyword or the cleaned checkbox. -/
def NewWebappForm.is_packaged (env : NewWebappEnv) : Bool :=
  env.isPackagedKw || env.packagedField

/-- DeviceTypeForm._get_combined: the set of platform tokens of both
fields with their free- or paid- prefix stripped. -/
def DeviceTypeForm.get_combined (free paid : List String) : Finset String :=
  ((free ++ paid).map afterFirstDash).toFinset

/-- The bad_android condition of DeviceTypeForm._set_packaged_errors:
the android-packaged flag is inactive and an android platform is among
the combined devices. -/
def NewWebappForm.bad_android (env : NewWebappEnv) : Bool :=
  !env.androidPackagedFlag &&
    (decide ("android-mobile" ∈ DeviceTypeForm.get_combined env.free env.paid) ||
     decide ("android-tablet" ∈ DeviceTypeForm.get_combined env.free env.paid))

/-- The bad_desktop condition of DeviceTypeForm._set_packaged_errors:
the desktop-packaged flag is inactive and desktop is among the combined
devices. -/
def NewWebappForm.bad_desktop (env : NewWebappEnv) : Bool :=
  !env.desktopPackagedFlag &&
    decide ("desktop" ∈ DeviceTypeForm.get_combined env.free env.paid)

/-- The observable outcome of NewWebappForm.clean: the error key on the
platform fields (they always receive the same one), the errors on the
upload field, and whether clean returned data. -/
structure NewWebappCleanResult where
  platformError : Option PlatformError
  uploadErrors : List UploadError
  hasData : Bool
deriving DecidableEq

/-- NewWebappForm.clean, including the inherited chain: it first runs
DeviceTypeForm.clean, whose both and none error branches return the data
without reaching the version form, and whose fall-through branch runs
NewWebappVersionForm.clean; then, when data came back and the submission
is packaged, it runs DeviceTypeForm._set_packaged_errors and returns no
data when the free_platforms key carries an error. -/
def NewWebappForm.clean (env : NewWebappEnv) : NewWebappCleanResult :=
  let base : Option PlatformError × List UploadError × Bool :=
    if env.free ≠ [] ∧ env.paid ≠ [] then (some PlatformError.both, [], true)
    else if env.free = [] ∧ env.paid = [] then
      (some PlatformError.noneSelected, [], true)
    else
      let v := NewWebappVersionForm.clean (NewWebappForm.is_packaged env)
        env.version
      (none, v.1, v.2)
  let platErr := base.1
  let uerrs := base.2.1
  let data := base.2.2
  if data = false then ⟨platErr, uerrs, false⟩
  else if NewWebappForm.is_packaged env then
    let platErr2 :=
      if NewWebappForm.bad_android env || NewWebappForm.bad_desktop env then
        some PlatformError.packaged
      else platErr
    if platErr2.isSome then ⟨platErr2, uerrs, false⟩
    else ⟨platErr2, uerrs, true⟩
  else ⟨platErr, uerrs, true⟩

/-- Modelled from the spec: the outbound call to the subscription
registration service carries recipient address, list name, format,
country, language and a source tag; basket.subscribe is external, so the
call is recorded with the arguments DevAgreementForm.save passes. -/
structure BasketCall where
  email : String
  newsletter : String
  fmt : String
  country : String
  lang : String
deriving DecidableEq

/-- The per-user state DevAgreementForm.save touches: the agreement
timestamp on the instance, whether instance.save ran, and the enabled
flag of the app_surveys notification preference. -/
structure AgreementState where
  readDevAgreement : Option Nat
  saved : Bool
  surveysEnabled : Bool
deriving DecidableEq

/-- DevAgreementForm.save: stamps read_dev_agreement with the current
time and saves the instance; when the newsletter box was checked it
enables the app_surveys notification preference and calls
basket.subscribe with the app-dev list, format H, the request region
and language.  Returns the updated state and the subscription calls
made. -/
def DevAgreementForm.save (now : Nat) (email country lang : String)
    (newsletter : Bool) (st : AgreementState) :
    AgreementState × List BasketCall :=
  let st2 : AgreementState :=
    { st with readDevAgreement := some now, saved := true }
  if newsletter then
    ({ st2 with surveysEnabled := true },
     [⟨email, "app-dev", "H", country, lang⟩])
  else (st2, [])

/-- The errors AppDetailsBasicForm.clean_app_slug can raise: the
slug_validator format error, the already-in-use error, the blocklist
error. -/
inductive SlugError
  | invalidFormat
  | inUse
  | blocked
deriving DecidableEq

/-- Embeds the Python slug.lower() call: character-wise lowercasing. -/
def lowerStr (s : String) : String :=
  String.mk (s.data.map Char.toLower)

/-- AppDetailsBasicForm.clean_app_slug.  The three predicates stand for
the external collaborators: slug_validator with lower=False (validFormat,
raising on a malformed slug), the Webapp query on app_slug (inUse) and
BlacklistedSlug.blocked (isBlocked).  The uniqueness and blocklist
checks run only when the submitted slug differs from the instance slug,
and the accepted value is the lowercased slug. -/
def AppDetailsBasicForm.clean_app_slug
    (validFormat inUse isBlocked : String → Bool)
    (instanceSlug slug : String) : Except SlugError String :=
  if validFormat slug = false then Except.error SlugError.invalidFormat
  else if slug ≠ instanceSlug then
    if inUse slug then Except.error SlugError.inUse
    else if isBlocked slug then Except.error SlugError.blocked
    else Except.ok (lowerStr slug)
  else Except.ok (lowerStr slug)

/-- Whether a clean_app_slug result accepted the slug. -/
def slugAccepted : Except SlugError String → Bool
  | Except.ok _ => true
  | Except.error _ => false

/-- Boolean lexicographic order on character lists, embedding the string
order Python sorted uses (code-point lexicographic). -/
def charListLe : List Char → List Char → Bool
  | [], _ => true
  | _ :: _, [] => false
  | a :: as, b :: bs => if a = b then charListLe as bs else decide (a < b)

/-- String comparison for sortKeys. -/
def strLe (a b : String) : Bool :=
  charListLe a.data b.data

/-- Insertion step of sortKeys. -/
def insertSorted (s : String) : List String → List String
  | [] => [s]
  | x :: xs => if strLe s x then s :: x :: xs else x :: insertSorted s xs

/-- Embeds the Python sorted() applied to feature key lists in
AppFeaturesForm: insertion sort by the lexicographic string order. -/
def sortKeys : List String → List String
  | [] => []
  | x :: xs => insertSorted x (sortKeys xs)

/-- Modelled from the spec: a feature-change re-review entry records the
reason and a message enumerating the added and removed requirements;
RereviewQueue.flag and the APP_FEATURES name table are external, so the
entry keeps the added and removed feature-name sets the message lists. -/
structure FeatureRereviewEntry where
  added : Finset String
  removed : Finset String
deriving DecidableEq

/-- mark_for_rereview_features_change: builds the message from the added
and removed feature names and calls RereviewQueue.flag exactly once. -/
def mark_for_rereview_features_change (added removed : Finset String) :
    List FeatureRereviewEntry :=
  [⟨added, removed⟩]

/-- AppFeaturesForm._changed_features: the name sets of the initial and
of the new feature keys (to_list maps enabled keys to their names via
the external APP_FEATURES table, abstracted as featName), returning the
added and the removed names. -/
def AppFeaturesForm.changed_features (featName : String → String)
    (initialFeatures newKeys : List String) :
    Finset String × Finset String :=
  let old_features := (initialFeatures.map featName).toFinset
  let new_features := (newKeys.map featName).toFinset
  (new_features \ old_features, old_features \ new_features)

/-- AppFeaturesForm.save.  Inputs: whether the form has an instance, the
mark_for_rereview keyword (default True at the call sites that omit it),
whether the addon status is in amo.WEBAPPS_APPROVED_STATUSES, the
initial_features list captured at form construction (the sorted keys of
the instance then), the current feature keys of the instance, and the
external feature-name table.  Output: whether the record was saved (the
super save always runs first) and the re-review entries created. -/
def AppFeaturesForm.save (hasInstance markForRereview approved : Bool)
    (initialFeatures newKeys : List String)
    (featName : String → String) :
    Bool × List FeatureRereviewEntry :=
  let entries :=
    if hasInstance = true ∧ markForRereview = true ∧ approved = true ∧
        sortKeys newKeys ≠ initialFeatures then
      let changed := AppFeaturesForm.changed_features featName
        initialFeatures newKeys
      mark_for_rereview_features_change changed.1 changed.2
    else []
  (true, entries)

end ZamboniSubmit

namespace ZamboniSubmit

/-- Claim C2: DeviceTypeForm.clean rejects a submission that selects both
a free and a paid platform, rejects a submission that selects no
platform at all, and every accepted submission selects at least one
platform and not platforms from both sets. -/
theorem C2_platform_exclusivity (free paid : List String) :
    (free ≠ [] → paid ≠ [] →
      (DeviceTypeForm.clean free paid).1 = some "both") ∧
    (free = [] → paid = [] →
      (DeviceTypeForm.clean free paid).1 = some "none") ∧
    ((DeviceTypeForm.clean free paid).1 = none →
      (free ≠ [] ∨ paid ≠ []) ∧ ¬(free ≠ [] ∧ paid ≠ [])) := by
  refine ⟨fun h1 h2 => ?_, fun h1 h2 => ?_, fun h => ?_⟩
  · simp [DeviceTypeForm.clean, h1, h2]
  · simp [DeviceTypeForm.clean, h1, h2]
  · by_cases h1 : free = [] <;> by_cases h2 : paid = [] <;>
      simp_all [DeviceTypeForm.clean]

/-- Witness for C2 at concrete inputs: selecting both sets yields the
both error, selecting neither yields the none error, and a single free
selection is accepted. -/
theorem C2_platform_exclusivity_witness :
    (DeviceTypeForm.clean ["free-firefoxos"] ["paid-firefoxos"]).1
        = some "both" ∧
    (DeviceTypeForm.clean [] []).1 = some "none" := by
  constructor
  · exact (C2_platform_exclusivity ["free-firefoxos"] ["paid-firefoxos"]).1
      (by decide) (by decide)
  · exact (C2_platform_exclusivity [] []).2.1 rfl rfl

/-- Claim C1, counterexample: on an approved listing whose prior devices
are gaia and mobile, submitting only the firefoxos platform removes the
mobile device — the set of added or removed device types is non-empty —
yet DeviceTypeForm.save creates no re-review entry, because the code
only flags re-review when the added set is non-empty. -/
theorem C1_counterexample :
    DeviceTypeForm.save ["free-firefoxos"] [] false
        {DeviceType.gaia, DeviceType.mobile} true
      = some ({DeviceType.gaia}, []) ∧
    (({DeviceType.gaia, DeviceType.mobile} : Finset DeviceType) \
        {DeviceType.gaia}).Nonempty := by
  constructor
  · decide
  · decide

/-- Claim C1 (amended): for an approved listing, when the save operation
computes a non-empty set of ADDED device types, exactly one re-review
entry is created and its message lists exactly the added and the removed
platforms; a change consisting only of removals creates no entry. -/
theorem C1_rereview_on_added_devices
    (free_platforms paid_platforms : List String) (is_paid : Bool)
    (oldTypes : Finset DeviceType) (devs : List DeviceType)
    (hsub : ((DeviceTypeForm.get_devices
        ((if is_paid then paid_platforms else free_platforms).map
          afterFirstDash)).mapM id) = some devs)
    (hadded : (devs.toFinset \ oldTypes).Nonempty) :
    DeviceTypeForm.save free_platforms paid_platforms is_paid oldTypes true
      = some ((oldTypes ∪ (devs.toFinset \ oldTypes)) \
                (oldTypes \ devs.toFinset),
              [⟨devs.toFinset \ oldTypes, oldTypes \ devs.toFinset⟩]) := by
  simp only [DeviceTypeForm.save, hsub, Option.map_some]
  simp [mark_for_rereview, hadded]

/-- Witness for the amended C1 at a concrete input: adding desktop to a
listing with no devices creates exactly one entry listing the added
desktop device and no removals. -/
theorem C1_rereview_on_added_devices_witness :
    DeviceTypeForm.save ["free-desktop"] [] false ∅ true
      = some (((∅ : Finset DeviceType) ∪
                ([DeviceType.desktop].toFinset \ ∅)) \
                (∅ \ [DeviceType.desktop].toFinset),
              [⟨[DeviceType.desktop].toFinset \ ∅,
                ∅ \ [DeviceType.desktop].toFinset⟩]) :=
  C1_rereview_on_added_devices ["free-desktop"] [] false ∅
    [DeviceType.desktop] (by decide) (by decide)

/-- Claim C4: for a packaged upload validated against an existing
listing, when the parsed manifest carries a version string that already
exists among the versions of the listing, NewWebappVersionForm.clean
records the version-exists error on the upload field and returns no
data, so the form is invalid and nothing is persisted. -/
theorem C4_duplicate_version_rejected (env : VersionEnv)
    (pkg : ManifestData) (v : String)
    (hup : env.uploadPresent = true)
    (hparse : env.parseResult = some pkg)
    (hver : pkg.version = some v)
    (hv : v ≠ "")
    (haddon : env.hasAddon = true)
    (hdup : v ∈ env.existingVersions) :
    UploadError.versionExists v ∈ (NewWebappVersionForm.clean true env).1 ∧
    (NewWebappVersionForm.clean true env).2 = false := by
  simp only [NewWebappVersionForm.clean, hup, hparse, hver]
  simp [pyTruthy, hv, haddon, hdup]

/-- Witness for C4 at a concrete input: a manifest with version 1.0 that
already exists on the listing is rejected. -/
theorem C4_duplicate_version_rejected_witness :
    UploadError.versionExists "1.0" ∈
      (NewWebappVersionForm.clean true
        ⟨true, some ⟨some "1.0", none⟩, true, ["1.0"], "app://x", true,
          true⟩).1 ∧
    (NewWebappVersionForm.clean true
        ⟨true, some ⟨some "1.0", none⟩, true, ["1.0"], "app://x", true,
          true⟩).2 = false :=
  C4_duplicate_version_rejected _ ⟨some "1.0", none⟩ "1.0" rfl rfl rfl
    (by decide) rfl (by decide)

/-- Claim C5: for a packaged upload validated against an existing
listing, when the parsed manifest declares an origin different from the
app domain of the listing, NewWebappVersionForm.clean records the
origin-change error on the upload field and returns no data; the form
therefore never lets a differing origin through. -/
theorem C5_origin_change_rejected (env : VersionEnv)
    (pkg : ManifestData) (o : String)
    (hup : env.uploadPresent = true)
    (hparse : env.parseResult = some pkg)
    (horigin : pkg.origin = some o)
    (ho : o ≠ "")
    (haddon : env.hasAddon = true)
    (hdiff : o ≠ env.appDomain) :
    UploadError.originChanged ∈ (NewWebappVersionForm.clean true env).1 ∧
    (NewWebappVersionForm.clean true env).2 = false := by
  simp only [NewWebappVersionForm.clean, hup, hparse, horigin]
  by_cases hver : pyTruthy pkg.version ∧ env.hasAddon = true ∧
      pkg.version.getD "" ∈ env.existingVersions <;>
    by_cases hdom : env.packagedDomainOk = false <;>
      simp [pyTruthy, ho, haddon, hdiff, hver, hdom]

/-- Witness for C5 at a concrete input: a manifest declaring origin
app://other against a listing with app domain app://mine is rejected. -/
theorem C5_origin_change_rejected_witness :
    UploadError.originChanged ∈
      (NewWebappVersionForm.clean true
        ⟨true, some ⟨none, some "app://other"⟩, true, [], "app://mine",
          true, true⟩).1 ∧
    (NewWebappVersionForm.clean true
        ⟨true, some ⟨none, some "app://other"⟩, true, [], "app://mine",
          true, true⟩).2 = false :=
  C5_origin_change_rejected _ ⟨none, some "app://other"⟩ "app://other"
    rfl rfl rfl (by decide) rfl (by decide)

/-- Claim C6, counterexample: a packaged new-app submission selecting
android-mobile while the android-packaged flag is inactive, but whose
upload field failed validation, is rejected with only the upload error:
clean returns before _set_packaged_errors runs, so no platform-field
error is set, contrary to the claim. -/
theorem C6_counterexample :
    NewWebappForm.clean
        ⟨["free-android-mobile"], [], false, true, false, true,
          ⟨false, none, false, [], "", true, true⟩⟩
      = ⟨none, [UploadError.missingUpload], false⟩ ∧
    NewWebappForm.is_packaged
        ⟨["free-android-mobile"], [], false, true, false, true,
          ⟨false, none, false, [], "", true, true⟩⟩ = true ∧
    NewWebappForm.bad_android
        ⟨["free-android-mobile"], [], false, true, false, true,
          ⟨false, none, false, [], "", true, true⟩⟩ = true := by
  exact ⟨by decide, by decide, by decide⟩

/-- Claim C6 (amended): for a packaged new-app submission where an
android platform is selected with the android-packaged flag inactive or
desktop is selected with the desktop-packaged flag inactive, provided
the inherited clean chain produced data (the upload part validated, or
the both-selected branch short-circuited it), NewWebappForm.clean sets
the packaged error on the platform fields and returns no data. -/
theorem C6_packaged_platform_gating (env : NewWebappEnv)
    (hpack : NewWebappForm.is_packaged env = true)
    (hbad : NewWebappForm.bad_android env = true ∨
      NewWebappForm.bad_desktop env = true)
    (hdata : (NewWebappVersionForm.clean (NewWebappForm.is_packaged env)
        env.version).2 = true ∨ (env.free ≠ [] ∧ env.paid ≠ [])) :
    (NewWebappForm.clean env).platformError = some PlatformError.packaged ∧
    (NewWebappForm.clean env).hasData = false := by
  have hb : (NewWebappForm.bad_android env ||
      NewWebappForm.bad_desktop env) = true := by
    rcases hbad with h | h <;> simp [h]
  by_cases h1 : env.free ≠ [] ∧ env.paid ≠ []
  · simp [NewWebappForm.clean, h1, hpack, hb]
  · by_cases h2 : env.free = [] ∧ env.paid = []
    · simp [NewWebappForm.clean, h1, h2, hpack, hb]
    · rcases hdata with hd | hd
      · rw [hpack] at hd
        simp [NewWebappForm.clean, h1, h2, hpack, hb, hd]
      · exact absurd hd h1

/-- Witness for the amended C6 at a concrete input: a packaged
submission with a valid upload selecting android-mobile while the
android-packaged flag is inactive gets the packaged platform error and
no data. -/
theorem C6_packaged_platform_gating_witness :
    (NewWebappForm.clean
        ⟨["free-android-mobile"], [], true, false, false, true,
          ⟨true, some ⟨none, none⟩, false, [], "", true, true⟩⟩).platformError
      = some PlatformError.packaged ∧
    (NewWebappForm.clean
        ⟨["free-android-mobile"], [], true, false, false, true,
          ⟨true, some ⟨none, none⟩, false, [], "", true, true⟩⟩).hasData
      = false :=
  C6_packaged_platform_gating _ (by decide) (Or.inl (by decide))
    (Or.inl (by decide))

/-- Claim C3: saving AppFeaturesForm for a listing whose current feature
keys, sorted, equal the initial_features captured at construction
creates no re-review entry, whatever the status, the instance flag and
the mark_for_rereview keyword. -/
theorem C3_unchanged_features_no_rereview
    (hasInstance markForRereview approved : Bool)
    (initialFeatures newKeys : List String) (featName : String → String)
    (h : sortKeys newKeys = initialFeatures) :
    (AppFeaturesForm.save hasInstance markForRereview approved
      initialFeatures newKeys featName).2 = [] := by
  simp [AppFeaturesForm.save, h]

/-- Witness for C3 at a concrete input: an approved listing re-submitting
the same two features in a different order creates no entry. -/
theorem C3_unchanged_features_no_rereview_witness :
    (AppFeaturesForm.save true true true ["has_apps", "has_sms"]
      ["has_sms", "has_apps"] (fun s => s)).2 = [] :=
  C3_unchanged_features_no_rereview true true true _ _ _ (by decide)

/-- Claim C10: saving AppFeaturesForm with the mark_for_rereview keyword
set to False never creates a re-review entry, even for an approved
listing with a changed feature set, and the record is still saved. -/
theorem C10_rereview_suppressed_by_keyword (hasInstance approved : Bool)
    (initialFeatures newKeys : List String) (featName : String → String) :
    (AppFeaturesForm.save hasInstance false approved initialFeatures
        newKeys featName).2 = [] ∧
    (AppFeaturesForm.save hasInstance false approved initialFeatures
        newKeys featName).1 = true := by
  simp [AppFeaturesForm.save]

/-- Claim C7: a submitted slug that differs from the instance slug and
is either already used by a webapp or on the slug blocklist makes
clean_app_slug raise, so the field carries an error and the form never
reaches save. -/
theorem C7_slug_taken_or_blocked_rejected
    (validFormat inUse isBlocked : String → Bool)
    (instanceSlug slug : String)
    (hne : slug ≠ instanceSlug)
    (h : inUse slug = true ∨ isBlocked slug = true) :
    slugAccepted (AppDetailsBasicForm.clean_app_slug validFormat inUse
      isBlocked instanceSlug slug) = false := by
  cases hv : validFormat slug
  · simp [AppDetailsBasicForm.clean_app_slug, hv, slugAccepted]
  · rcases h with h | h
    · simp [AppDetailsBasicForm.clean_app_slug, hv, hne, h, slugAccepted]
    · cases hu : inUse slug <;>
        simp [AppDetailsBasicForm.clean_app_slug, hv, hne, hu, h,
          slugAccepted]

/-- Witness for C7 at a concrete input: the slug taken, used by another
webapp, is rejected. -/
theorem C7_slug_taken_or_blocked_rejected_witness :
    slugAccepted (AppDetailsBasicForm.clean_app_slug (fun _ => true)
      (fun s => s == "taken") (fun _ => false) "mine" "taken") = false :=
  C7_slug_taken_or_blocked_rejected _ _ _ "mine" "taken" (by decide)
    (Or.inl (by decide))

/-- Claim C9: when the submitted slug equals the instance slug the
uniqueness and blocklist checks are skipped (the result is acceptance
for every choice of the two predicates, format permitting); every
accepted result is the lowercased submitted slug; and for a differing
slug acceptance is decided by the predicates applied to the slug in its
original casing. -/
theorem C9_slug_casing_and_skip
    (validFormat inUse isBlocked : String → Bool)
    (instanceSlug slug : String) :
    (slug = instanceSlug → validFormat slug = true →
      AppDetailsBasicForm.clean_app_slug validFormat inUse isBlocked
        instanceSlug slug = Except.ok (lowerStr slug)) ∧
    (∀ s, AppDetailsBasicForm.clean_app_slug validFormat inUse isBlocked
        instanceSlug slug = Except.ok s → s = lowerStr slug) ∧
    (slug ≠ instanceSlug →
      (AppDetailsBasicForm.clean_app_slug validFormat inUse isBlocked
          instanceSlug slug = Except.ok (lowerStr slug) ↔
        validFormat slug = true ∧ inUse slug = false ∧
          isBlocked slug = false)) := by
  unfold AppDetailsBasicForm.clean_app_slug
  cases hv : validFormat slug <;> cases hu : inUse slug <;>
    cases hb : isBlocked slug <;>
      by_cases hne : slug = instanceSlug <;> simp_all

/-- Witness for C9 at a concrete input: re-submitting the instance slug
ABC is accepted as abc even though the in-use predicate holds for it,
because the checks are skipped on an unchanged slug. -/
theorem C9_slug_casing_and_skip_witness :
    AppDetailsBasicForm.clean_app_slug (fun _ => true) (fun _ => true)
      (fun _ => false) "ABC" "ABC" = Except.ok (lowerStr "ABC") :=
  (C9_slug_casing_and_skip (fun _ => true) (fun _ => true)
    (fun _ => false) "ABC" "ABC").1 rfl rfl

/-- Claim C8: DevAgreementForm.save stamps the agreement timestamp with
the current time and saves the record; the subscription service is
called exactly when the newsletter box was checked, in which case the
app_surveys notification preference is enabled; otherwise the
preference is left as it was and no call is made. -/
theorem C8_agreement_save (now : Nat) (email country lang : String)
    (newsletter : Bool) (st : AgreementState) :
    ((DevAgreementForm.save now email country lang newsletter
        st).1.readDevAgreement = some now) ∧
    ((DevAgreementForm.save now email country lang newsletter st).1.saved
        = true) ∧
    ((DevAgreementForm.save now email country lang newsletter st).2 ≠ []
        ↔ newsletter = true) ∧
    (newsletter = true →
      (DevAgreementForm.save now email country lang newsletter
        st).1.surveysEnabled = true ∧
      (DevAgreementForm.save now email country lang newsletter st).2
        = [⟨email, "app-dev", "H", country, lang⟩]) ∧
    (newsletter = false →
      (DevAgreementForm.save now email country lang newsletter
        st).1.surveysEnabled = st.surveysEnabled ∧
      (DevAgreementForm.save now email country lang newsletter st).2
        = []) := by
  cases newsletter <;> simp [DevAgreementForm.save]

/-- Witness for C8 at a concrete input: a checked newsletter box enables
the preference and produces the subscription call. -/
theorem C8_agreement_save_witness :
    (DevAgreementForm.save 7 "dev@example.com" "us" "en" true
        ⟨none, false, false⟩).1.readDevAgreement = some 7 ∧
    (DevAgreementForm.save 7 "dev@example.com" "us" "en" true
        ⟨none, false, false⟩).1.surveysEnabled = true ∧
    (DevAgreementForm.save 7 "dev@example.com" "us" "en" true
        ⟨none, false, false⟩).2
      = [⟨"dev@example.com", "app-dev", "H", "us", "en"⟩] :=
  ⟨(C8_agreement_save 7 "dev@example.com" "us" "en" true
      ⟨none, false, false⟩).1,
   ((C8_agreement_save 7 "dev@example.com" "us" "en" true
      ⟨none, false, false⟩).2.2.2.1 rfl).1,
   ((C8_agreement_save 7 "dev@example.com" "us" "en" true
      ⟨none, false, false⟩).2.2.2.1 rfl).2⟩

end ZamboniSubmit
